import Mathlib

/-!
Verification of the `Chassis` platform facade of
`device/accton/x86_64-accton_as9817_64o-r0/sonic_platform/chassis.py`.

The module aggregates fixed counts of collaborator objects and forwards
calls.  External collaborators (the per-device classes, the TLV EEPROM
parser, the SFP event poller, the text-file helper) are modelled as
abstract parameters or, where a claim depends on their documented
behaviour, as explicitly marked models.  The filesystem is a function
from paths to optional file contents (`none` = missing or unreadable).
-/

/-- Hardware count `NUM_FAN_TRAY = 4` from chassis.py. -/
def NUM_FAN_TRAY : Nat := 4

/-- Hardware count `NUM_PSU = 2` from chassis.py. -/
def NUM_PSU : Nat := 2

/-- Hardware count `NUM_THERMAL = 13` from chassis.py. -/
def NUM_THERMAL : Nat := 13

/-- Hardware count `NUM_PORT = 66` from chassis.py. -/
def NUM_PORT : Nat := 66

/-- Hardware count `NUM_COMPONENT = 5` from chassis.py. -/
def NUM_COMPONENT : Nat := 5

/-- Path constant `HOST_REBOOT_CAUSE_PATH` from chassis.py. -/
def HOST_REBOOT_CAUSE_PATH : String := "/host/reboot-cause/"

/-- Path constant `PMON_REBOOT_CAUSE_PATH` from chassis.py. -/
def PMON_REBOOT_CAUSE_PATH : String := "/usr/share/sonic/platform/api_files/reboot-cause/"

/-- File-name constant `REBOOT_CAUSE_FILE` from chassis.py. -/
def REBOOT_CAUSE_FILE : String := "reboot-cause.txt"

/-- File-name constant `PREV_REBOOT_CAUSE_FILE` from chassis.py. -/
def PREV_REBOOT_CAUSE_FILE : String := "previous-reboot-cause.txt"

/-- Sysfs node `SYSLED_FNODE` from chassis.py. -/
def SYSLED_FNODE : String := "/sys/devices/platform/as9817_64_led/led_alarm"

/-- Dictionary `SYSLED_MODES` from chassis.py, as an association list in
Python insertion order (raw sysfs value, LED colour string). -/
def SYSLED_MODES : List (String × String) :=
  [("0", "STATUS_LED_COLOR_OFF"), ("10", "STATUS_LED_COLOR_RED")]

/-- Modelled from the spec: the constant `REBOOT_CAUSE_NON_HARDWARE` of the
external base class `ChassisBase` (sonic_platform_base, outside this
repository); one of the predefined reboot-cause strings. -/
def REBOOT_CAUSE_NON_HARDWARE : String := "REBOOT_CAUSE_NON_HARDWARE"

/-- A transceiver collaborator instance: `Sfp(index, name)` is external, so
only its construction arguments (0-based index and interface name) are
retained. -/
structure Sfp where
  idx : Nat
  name : String
deriving DecidableEq, Repr

/-- The environment of external collaborators consumed by the chassis:
`APIHelper.is_host()`, the `APIHelper.get_intf_name()` dictionary, and for
each fan-drawer index the `_fan_list` of the external `FanDrawer` object
(each fan abstracted to a tag). -/
structure Env where
  is_host : Bool
  intf_name : Nat → Option String
  drawer_fans : Nat → List Nat

/-- The mutable state of a `Chassis` object: the five device collections
(collaborators abstracted to their construction index), the flattened fan
list, the lazily-rebuildable SFP event notifier (modelled by the
transceiver list it is bound to; `none` = not yet constructed), the
`sfp_module_initialized` flag and the cached `is_host` value. -/
structure ChassisState where
  fan_drawer_list : List Nat
  fan_list : List Nat
  psu_list : List Nat
  thermal_list : List Nat
  component_list : List Nat
  sfp_list : List Sfp
  sfpevent : Option (List Sfp)
  sfp_module_initialized : Bool
  is_host : Bool

/-- `Chassis.__initialize_sfp`: appends `NUM_PORT` freshly constructed
`Sfp(index, intf_name.get(index+1, "Unknown"))` objects to `_sfp_list`,
rebuilds the `SfpEvent` notifier bound to the (whole) list, and sets
`sfp_module_initialized`. -/
def init_sfp (env : Env) (st : ChassisState) : ChassisState :=
  let fresh := (List.range NUM_PORT).map
    (fun i => Sfp.mk i ((env.intf_name (i + 1)).getD "Unknown"))
  let sl := st.sfp_list ++ fresh
  { st with sfp_list := sl, sfpevent := some sl, sfp_module_initialized := true }

/-- `Chassis.__initialize_fan`: one external `FanDrawer(i)` per index in
`range(NUM_FAN_TRAY)`, appended to `_fan_drawer_list`, its `_fan_list`
extended onto `_fan_list`. -/
def init_fan (env : Env) (st : ChassisState) : ChassisState :=
  { st with
    fan_drawer_list := st.fan_drawer_list ++ List.range NUM_FAN_TRAY,
    fan_list := st.fan_list ++ ((List.range NUM_FAN_TRAY).map env.drawer_fans).flatten }

/-- `Chassis.__initialize_psu`: one `Psu(i)` per index in `range(NUM_PSU)`. -/
def init_psu (st : ChassisState) : ChassisState :=
  { st with psu_list := st.psu_list ++ List.range NUM_PSU }

/-- `Chassis.__initialize_thermals`: one `Thermal(i)` per index in
`range(NUM_THERMAL)`. -/
def init_thermals (st : ChassisState) : ChassisState :=
  { st with thermal_list := st.thermal_list ++ List.range NUM_THERMAL }

/-- `Chassis.__initialize_components`: one `Component(i)` per index in
`range(NUM_COMPONENT)`. -/
def init_components (st : ChassisState) : ChassisState :=
  { st with component_list := st.component_list ++ List.range NUM_COMPONENT }

/-- The state `ChassisBase.__init__` leaves behind: all device lists empty,
no notifier, flag unset. -/
def empty_chassis (env : Env) : ChassisState :=
  ⟨[], [], [], [], [], [], none, false, env.is_host⟩

/-- `Chassis.__init__`: runs the initializers in source order
(fan, psu, thermals, components, sfp; the EEPROM collaborator is external
and carries no state used by any accessor modelled here). -/
def chassis_init (env : Env) : ChassisState :=
  init_sfp env (init_components (init_thermals (init_psu (init_fan env (empty_chassis env)))))

/-- Python list subscription `l[i]` for an integer `i`: a non-negative
in-bounds index selects position `i`; a negative index counts from the end
(position `i + len(l)` when that is non-negative); anything else raises
`IndexError`, modelled as `none`. -/
def py_list_get {α : Type} (l : List α) (i : Int) : Option α :=
  if 0 ≤ i ∧ i < (l.length : Int) then l.get? i.toNat
  else if i < 0 ∧ 0 ≤ i + (l.length : Int) then l.get? (i + (l.length : Int)).toNat
  else none

/-- `Chassis.get_sfp(index)`: re-runs `__initialize_sfp` when the flag is
unset, then returns `_sfp_list[index-1]`, catching `IndexError` by writing
an out-of-range message to standard error and leaving the result `None`.
Result: (returned SFP or `None`, state afterwards, stderr output if any). -/
def get_sfp (env : Env) (st : ChassisState) (index : Int) :
    Option Sfp × ChassisState × Option String :=
  let st1 := if st.sfp_module_initialized then st else init_sfp env st
  match py_list_get st1.sfp_list (index - 1) with
  | some s => (some s, st1, none)
  | none =>
    (none, st1,
      some ("SFP index " ++ toString index ++ " out of range (1-" ++
            toString st1.sfp_list.length ++ ")\n"))

/-- `Chassis.get_change_event(timeout)`: re-runs `__initialize_sfp` when the
flag is unset, then delegates to the external `SfpEvent` notifier.  Result:
(state afterwards, the notifier consulted, i.e. the transceiver list it is
bound to). -/
def get_change_event (env : Env) (st : ChassisState) (_timeout : Int) :
    ChassisState × Option (List Sfp) :=
  let st1 := if st.sfp_module_initialized then st else init_sfp env st
  (st1, st1.sfpevent)

/-- Modelled from the spec: `APIHelper.read_txt_file` (helper.py, outside
src/): reads a text file and returns its content, or `None` when the file
is missing or unreadable.  The filesystem itself is the function `fs`. -/
def read_txt_file (fs : String → Option String) (path : String) : Option String :=
  fs path

/-- Python `x or "Unknown"` applied to a `read_txt_file` result: both a
missing/unreadable file (`None`) and an empty string are falsy and map to
the sentinel `"Unknown"`. -/
def or_unknown : Option String → String
  | none => "Unknown"
  | some s => if s = "" then "Unknown" else s

/-- The current reboot-cause file path chosen by `get_reboot_cause`. -/
def reboot_cause_file_path (is_host : Bool) : String :=
  (if is_host then HOST_REBOOT_CAUSE_PATH else PMON_REBOOT_CAUSE_PATH) ++ REBOOT_CAUSE_FILE

/-- The previous reboot-cause file path chosen by `get_reboot_cause`. -/
def prev_reboot_cause_file_path (is_host : Bool) : String :=
  (if is_host then HOST_REBOOT_CAUSE_PATH else PMON_REBOOT_CAUSE_PATH) ++ PREV_REBOOT_CAUSE_FILE

/-- `Chassis.get_reboot_cause`: reads both reboot-cause files, mapping falsy
reads to `"Unknown"`; if the current cause is not `"Unknown"` it is the
description, elif the **path** string differs from `"Unknown"` (the source
compares `prev_reboot_cause_path`, not the previous cause) the previous
cause is the description; the final else would leave the local
`reboot_cause` unassigned so the return would raise `UnboundLocalError`,
modelled as `none`. -/
def get_reboot_cause (st : ChassisState) (fs : String → Option String) :
    Option (String × String) :=
  let rc_path := reboot_cause_file_path st.is_host
  let prev_path := prev_reboot_cause_file_path st.is_host
  let sw_reboot_cause := or_unknown (read_txt_file fs rc_path)
  let prev_sw_reboot_cause := or_unknown (read_txt_file fs prev_path)
  if sw_reboot_cause ≠ "Unknown" then
    some (REBOOT_CAUSE_NON_HARDWARE, sw_reboot_cause)
  else if prev_path ≠ "Unknown" then
    some (REBOOT_CAUSE_NON_HARDWARE, prev_sw_reboot_cause)
  else
    none

/-- `Chassis.get_status_led`: reads the sysfs node and maps the raw value
through `SYSLED_MODES`, defaulting to `"UNKNOWN"` (a missing file gives a
`None` read, which is not a key of the dictionary). -/
def get_status_led (fs : String → Option String) : String :=
  match read_txt_file fs SYSLED_FNODE with
  | none => "UNKNOWN"
  | some v =>
    match SYSLED_MODES.find? (fun p => p.1 == v) with
    | some p => p.2
    | none => "UNKNOWN"

/-- `Chassis.set_status_led(color)`: scans `SYSLED_MODES` in insertion order
for the first key whose value equals `color`; when none matches it returns
`False` without touching the node, otherwise it delegates to
`APIHelper.write_txt_file` (modelled from the spec: helper.py is outside
src/; a successful write, `write_ok = true`, stores the raw mode string at
the node and returns `True`; a failed write leaves the filesystem unchanged
and returns `False`).  Result: (return value, filesystem afterwards). -/
def set_status_led (fs : String → Option String) (write_ok : Bool) (color : String) :
    Bool × (String → Option String) :=
  match SYSLED_MODES.find? (fun p => p.2 == color) with
  | none => (false, fs)
  | some p =>
    if write_ok then
      (true, fun q => if q = SYSLED_FNODE then some p.1 else fs q)
    else
      (false, fs)

/-- The port-type bit constants of the external `SfpBase` class
(sonic_platform_base, outside this repository), kept abstract. -/
structure SfpBaseBits where
  bit_sfp : Nat
  bit_sfp_plus : Nat
  bit_sfp28 : Nat
  bit_qsfp : Nat
  bit_qsfp_plus : Nat
  bit_qsfp28 : Nat
  bit_qsfpdd : Nat
  bit_osfp : Nat

/-- `Chassis.get_port_or_cage_type(index)`: `index in range(1, 65)` selects
the QSFP-family combination, anything else the SFP-family combination. -/
def get_port_or_cage_type (b : SfpBaseBits) (index : Int) : Nat :=
  if 1 ≤ index ∧ index < 65 then
    b.bit_qsfp ||| b.bit_qsfp_plus ||| b.bit_qsfp28 ||| b.bit_qsfpdd ||| b.bit_osfp
  else
    b.bit_sfp ||| b.bit_sfp_plus ||| b.bit_sfp28

/-- The combined QSFP-family bitmask returned for ports 1..64. -/
def qsfp_family_mask (b : SfpBaseBits) : Nat :=
  b.bit_qsfp ||| b.bit_qsfp_plus ||| b.bit_qsfp28 ||| b.bit_qsfpdd ||| b.bit_osfp

/-- The combined SFP-family bitmask returned for every other index. -/
def sfp_family_mask (b : SfpBaseBits) : Nat :=
  b.bit_sfp ||| b.bit_sfp_plus ||| b.bit_sfp28

/-- Modelled from the spec: the concrete bit values assigned by the external
`SfpBase` class (RJ45 = 1, then successive powers of two). -/
def sfp_base_bits : SfpBaseBits :=
  ⟨2, 8, 32, 16, 64, 128, 256, 512⟩

/-- A concrete environment for evaluating the model: host mode, no interface
names known, no fans per drawer. -/
def env0 : Env :=
  ⟨true, fun _ => none, fun _ => []⟩

/-- A filesystem with no readable file at all. -/
def fs_none : String → Option String := fun _ => none

/-- A filesystem whose current reboot-cause file (host paths) holds the
literal text `"Unknown"` and whose previous reboot-cause file holds
`"PowerLoss"`. -/
def fs_unknown_literal : String → Option String := fun p =>
  if p = reboot_cause_file_path true then some "Unknown"
  else if p = prev_reboot_cause_file_path true then some "PowerLoss"
  else none

/-- A filesystem whose status-LED sysfs node holds the raw value `"0"`. -/
def fs_led_zero : String → Option String := fun p =>
  if p = SYSLED_FNODE then some "0" else none

/-- Helper: the result component of `get_sfp` is exactly the Python
subscription `_sfp_list[index-1]` on the (possibly re-initialised) list. -/
theorem get_sfp_fst (env : Env) (st : ChassisState) (i : Int) :
    (get_sfp env st i).1 =
      py_list_get (if st.sfp_module_initialized then st else init_sfp env st).sfp_list (i - 1) := by
  unfold get_sfp
  rcases hp : py_list_get (if st.sfp_module_initialized then st else init_sfp env st).sfp_list
      (i - 1) with _ | s <;>
    simp [hp]

/-- Helper: when the initialisation flag is already set, `get_sfp` leaves the
chassis state untouched. -/
theorem get_sfp_state (env : Env) (st : ChassisState) (i : Int)
    (h : st.sfp_module_initialized = true) :
    (get_sfp env st i).2.1 = st := by
  unfold get_sfp
  rw [if_pos h]
  rcases hp : py_list_get st.sfp_list (i - 1) with _ | s <;> simp [hp]

/-- Helper: when the initialisation flag is already set, `get_change_event`
leaves the chassis state untouched. -/
theorem get_change_event_state (env : Env) (st : ChassisState) (t : Int)
    (h : st.sfp_module_initialized = true) :
    (get_change_event env st t).1 = st := by
  unfold get_change_event
  rw [if_pos h]

/-- Helper: a non-negative in-bounds Python subscription is a plain `get?`. -/
theorem py_list_get_nonneg {α : Type} (l : List α) (i : Int)
    (h0 : 0 ≤ i) (h1 : i < (l.length : Int)) :
    py_list_get l i = l.get? i.toNat := by
  unfold py_list_get
  rw [if_pos ⟨h0, h1⟩]

/-- Helper: the transceiver list built by construction, element by element. -/
theorem chassis_init_sfp_list (env : Env) :
    (chassis_init env).sfp_list =
      (List.range NUM_PORT).map (fun i => Sfp.mk i ((env.intf_name (i + 1)).getD "Unknown")) := rfl

/-- Helper: the transceiver list has length `NUM_PORT` after construction. -/
theorem chassis_init_sfp_len (env : Env) : (chassis_init env).sfp_list.length = NUM_PORT := by
  rw [chassis_init_sfp_list]
  simp

/-- Helper: construction leaves the initialisation flag set. -/
theorem chassis_init_flag (env : Env) : (chassis_init env).sfp_module_initialized = true := rfl

/-- Claim C1: the claim says every index outside 1..66 (including 0 and
negatives) makes `get_sfp` write an out-of-range message to standard error
and return `None`.  The code instead evaluates `_sfp_list[index-1]`, and
Python negative subscription makes index 0 return the **last** transceiver
(0-based position 65) and index -1 return position 64, silently: no
`IndexError`, no stderr write, a non-`None` result.  Only indices ≥ 67 or
≤ -66 reach the error branch, as the final conjuncts show at 67. -/
theorem c1_get_sfp_zero_and_negative_silently_alias :
    (get_sfp env0 (chassis_init env0) 0).1 = some (Sfp.mk 65 "Unknown") ∧
    (get_sfp env0 (chassis_init env0) 0).2.2 = none ∧
    (get_sfp env0 (chassis_init env0) (-1)).1 = some (Sfp.mk 64 "Unknown") ∧
    (get_sfp env0 (chassis_init env0) (-1)).2.2 = none ∧
    (get_sfp env0 (chassis_init env0) 67).1 = none ∧
    (get_sfp env0 (chassis_init env0) 67).2.2 =
      some "SFP index 67 out of range (1-66)\n" :=
  ⟨rfl, rfl, rfl, rfl, rfl, rfl⟩

/-- Claim C2: when both reboot-cause files are missing or unreadable (both
reads return `None`), `get_reboot_cause` does not raise and returns a pair
whose description component is the sentinel `"Unknown"`. -/
theorem c2_missing_files_degrade_to_unknown (st : ChassisState) (fs : String → Option String)
    (h1 : fs (reboot_cause_file_path st.is_host) = none)
    (h2 : fs (prev_reboot_cause_file_path st.is_host) = none) :
    get_reboot_cause st fs = some (REBOOT_CAUSE_NON_HARDWARE, "Unknown") := by
  have hprev : prev_reboot_cause_file_path st.is_host ≠ "Unknown" := by
    cases h : st.is_host <;> simp [prev_reboot_cause_file_path, HOST_REBOOT_CAUSE_PATH,
      PMON_REBOOT_CAUSE_PATH, PREV_REBOOT_CAUSE_FILE]
  simp [get_reboot_cause, read_txt_file, h1, h2, or_unknown, hprev]

/-- Witness for C2 at a concrete state and an empty filesystem. -/
theorem c2_witness :
    fs_none (reboot_cause_file_path (chassis_init env0).is_host) = none ∧
    fs_none (prev_reboot_cause_file_path (chassis_init env0).is_host) = none ∧
    get_reboot_cause (chassis_init env0) fs_none =
      some (REBOOT_CAUSE_NON_HARDWARE, "Unknown") :=
  ⟨rfl, rfl, c2_missing_files_degrade_to_unknown (chassis_init env0) fs_none rfl rfl⟩

/-- Claim C3, counterexample: the current reboot-cause file is readable with
the non-empty content `"Unknown"`, yet the returned description is the
previous file's content `"PowerLoss"`, not the current content — the
literal sentinel text in the file is indistinguishable from a missing
file. -/
theorem c3_counterexample_literal_unknown_content :
    fs_unknown_literal (reboot_cause_file_path (chassis_init env0).is_host) = some "Unknown" ∧
    ("Unknown" : String) ≠ "" ∧
    get_reboot_cause (chassis_init env0) fs_unknown_literal =
      some (REBOOT_CAUSE_NON_HARDWARE, "PowerLoss") ∧
    ("PowerLoss" : String) ≠ "Unknown" :=
  ⟨rfl, by decide, rfl, by decide⟩

/-- Claim C3 as amended: `get_reboot_cause` never raises and the cause
component is always `REBOOT_CAUSE_NON_HARDWARE`; the description is the
current file's content when that content, after the falsy-to-"Unknown"
mapping, differs from the sentinel `"Unknown"` (i.e. readable, non-empty
and not literally `"Unknown"`); otherwise it is the previous file's content
under the same mapping (`"Unknown"` when that file is missing, unreadable
or empty).  The elif of the source compares the previous-file **path**
against `"Unknown"`, which is true for both concrete paths, so the
unassigned-variable else branch is unreachable. -/
theorem c3_amended_description_rule (st : ChassisState) (fs : String → Option String) :
    get_reboot_cause st fs =
      some (REBOOT_CAUSE_NON_HARDWARE,
        if or_unknown (read_txt_file fs (reboot_cause_file_path st.is_host)) = "Unknown"
        then or_unknown (read_txt_file fs (prev_reboot_cause_file_path st.is_host))
        else or_unknown (read_txt_file fs (reboot_cause_file_path st.is_host))) := by
  have hprev : prev_reboot_cause_file_path st.is_host ≠ "Unknown" := by
    cases h : st.is_host <;> simp [prev_reboot_cause_file_path, HOST_REBOOT_CAUSE_PATH,
      PMON_REBOOT_CAUSE_PATH, PREV_REBOOT_CAUSE_FILE]
  by_cases hsw : or_unknown (read_txt_file fs (reboot_cause_file_path st.is_host)) = "Unknown" <;>
    simp [get_reboot_cause, hsw, hprev]

/-- Claim C4: construction builds exactly five fixed-length collections by
iterating the hardware counts — 4 fan drawers, 2 PSUs, 13 thermals,
5 components, 66 transceivers — one collaborator per index, and the
state-touching operations (`get_sfp`, `get_change_event`; every other
accessor only reads files or in-memory lists) leave the constructed state,
hence every length, unchanged. -/
theorem c4_five_fixed_collections (env : Env) (i t : Int) :
    (chassis_init env).fan_drawer_list = List.range NUM_FAN_TRAY ∧
    (chassis_init env).psu_list = List.range NUM_PSU ∧
    (chassis_init env).thermal_list = List.range NUM_THERMAL ∧
    (chassis_init env).component_list = List.range NUM_COMPONENT ∧
    (chassis_init env).sfp_list =
      (List.range NUM_PORT).map (fun k => Sfp.mk k ((env.intf_name (k + 1)).getD "Unknown")) ∧
    (chassis_init env).fan_drawer_list.length = 4 ∧
    (chassis_init env).psu_list.length = 2 ∧
    (chassis_init env).thermal_list.length = 13 ∧
    (chassis_init env).component_list.length = 5 ∧
    (chassis_init env).sfp_list.length = 66 ∧
    (get_sfp env (chassis_init env) i).2.1 = chassis_init env ∧
    (get_change_event env (chassis_init env) t).1 = chassis_init env := by
  refine ⟨rfl, rfl, rfl, rfl, rfl, rfl, rfl, rfl, rfl, ?_,
    get_sfp_state env (chassis_init env) i (chassis_init_flag env),
    get_change_event_state env (chassis_init env) t (chassis_init_flag env)⟩
  rw [chassis_init_sfp_len]
  rfl

/-- Claim C5: for every 1-based index `i` with `1 ≤ i ≤ 66`, `get_sfp i`
returns the element at 0-based position `i - 1` of the internal transceiver
list. -/
theorem c5_get_sfp_is_one_based (env : Env) (i : Int) (h1 : 1 ≤ i) (h2 : i ≤ 66) :
    (get_sfp env (chassis_init env) i).1 =
      (chassis_init env).sfp_list.get? (i - 1).toNat := by
  have hlen : (((chassis_init env).sfp_list.length : Int)) = 66 := by
    rw [chassis_init_sfp_len]
    rfl
  rw [get_sfp_fst, if_pos (chassis_init_flag env),
    py_list_get_nonneg _ _ (by omega) (by rw [hlen]; omega)]

/-- Witness for C5 at index 1 in the concrete environment. -/
theorem c5_witness :
    ((1 : Int) ≤ 1 ∧ (1 : Int) ≤ 66) ∧
    (get_sfp env0 (chassis_init env0) 1).1 =
      (chassis_init env0).sfp_list.get? ((1 : Int) - 1).toNat :=
  ⟨by decide, c5_get_sfp_is_one_based env0 1 (by decide) (by decide)⟩

/-- Claim C6: `get_status_led` maps the raw sysfs value through
`SYSLED_MODES`: `"0"` gives `STATUS_LED_COLOR_OFF`, `"10"` gives
`STATUS_LED_COLOR_RED`, any other readable value gives `"UNKNOWN"`, and a
missing or unreadable file also gives `"UNKNOWN"`. -/
theorem c6_status_led_value_mapping (fs : String → Option String) :
    (fs SYSLED_FNODE = some "0" → get_status_led fs = "STATUS_LED_COLOR_OFF") ∧
    (fs SYSLED_FNODE = some "10" → get_status_led fs = "STATUS_LED_COLOR_RED") ∧
    (∀ v, fs SYSLED_FNODE = some v → v ≠ "0" → v ≠ "10" →
      get_status_led fs = "UNKNOWN") ∧
    (fs SYSLED_FNODE = none → get_status_led fs = "UNKNOWN") := by
  refine ⟨fun h => ?_, fun h => ?_, fun v h hv0 hv10 => ?_, fun h => ?_⟩
  · simp [get_status_led, read_txt_file, h, SYSLED_MODES]
  · simp [get_status_led, read_txt_file, h, SYSLED_MODES]
  · have e0 : (("0" : String) == v) = false := beq_eq_false_iff_ne.mpr (Ne.symm hv0)
    have e10 : (("10" : String) == v) = false := beq_eq_false_iff_ne.mpr (Ne.symm hv10)
    simp [get_status_led, read_txt_file, h, SYSLED_MODES, List.find?, e0, e10]
  · simp [get_status_led, read_txt_file, h]

/-- Witness for C6 with the sysfs node holding `"0"`. -/
theorem c6_witness :
    fs_led_zero SYSLED_FNODE = some "0" ∧
    get_status_led fs_led_zero = "STATUS_LED_COLOR_OFF" :=
  ⟨rfl, (c6_status_led_value_mapping fs_led_zero).1 rfl⟩

/-- Claim C7: for every colour outside the supported LED mode values,
`set_status_led` returns `False` and the filesystem — in particular the
status-LED node — is unchanged. -/
theorem c7_set_status_led_rejects_unsupported (fs : String → Option String) (ok : Bool)
    (color : String) (h1 : color ≠ "STATUS_LED_COLOR_OFF")
    (h2 : color ≠ "STATUS_LED_COLOR_RED") :
    set_status_led fs ok color = (false, fs) := by
  have e1 : (("STATUS_LED_COLOR_OFF" : String) == color) = false :=
    beq_eq_false_iff_ne.mpr (Ne.symm h1)
  have e2 : (("STATUS_LED_COLOR_RED" : String) == color) = false :=
    beq_eq_false_iff_ne.mpr (Ne.symm h2)
  simp [set_status_led, SYSLED_MODES, List.find?, e1, e2]

/-- Witness for C7 with the unsupported colour `"STATUS_LED_COLOR_GREEN"`. -/
theorem c7_witness :
    ("STATUS_LED_COLOR_GREEN" : String) ≠ "STATUS_LED_COLOR_OFF" ∧
    ("STATUS_LED_COLOR_GREEN" : String) ≠ "STATUS_LED_COLOR_RED" ∧
    set_status_led fs_none true "STATUS_LED_COLOR_GREEN" = (false, fs_none) :=
  ⟨by decide, by decide,
    c7_set_status_led_rejects_unsupported fs_none true "STATUS_LED_COLOR_GREEN"
      (by decide) (by decide)⟩

/-- Claim C8, counterexample: the claim says the event-notifier is not built
until the first `get_change_event`/`get_sfp` observes the flag unset, but
immediately after construction — before any operation has run — the
notifier already exists (bound to the transceiver list) and the flag is
already set, because `__init__` invokes `__initialize_sfp` eagerly. -/
theorem c8_counterexample_notifier_built_in_constructor :
    (chassis_init env0).sfpevent = some (chassis_init env0).sfp_list ∧
    (chassis_init env0).sfp_module_initialized = true :=
  ⟨rfl, rfl⟩

/-- Claim C8 as amended: the transceiver-list initialisation state is
tracked by the boolean flag `sfp_module_initialized`, and the
event-notifier bound to that list is constructed by `__initialize_sfp`,
which runs **eagerly during construction**; `get_sfp` and
`get_change_event` re-run it only when they observe the flag unset (after
construction the flag is set, so they leave the state untouched, and from
an unset-flag state they do rebuild the notifier bound to the list). -/
theorem c8_amended_eager_notifier (env : Env) (st : ChassisState) (i t : Int) :
    (chassis_init env).sfp_module_initialized = true ∧
    (chassis_init env).sfpevent = some (chassis_init env).sfp_list ∧
    (st.sfp_module_initialized = true →
      (get_sfp env st i).2.1 = st ∧ (get_change_event env st t).1 = st) ∧
    (st.sfp_module_initialized = false →
      (get_sfp env st i).2.1 = init_sfp env st ∧
      (get_change_event env st t).1 = init_sfp env st ∧
      (init_sfp env st).sfpevent = some (init_sfp env st).sfp_list ∧
      (init_sfp env st).sfp_module_initialized = true) := by
  refine ⟨chassis_init_flag env, rfl,
    fun h => ⟨get_sfp_state env st i h, get_change_event_state env st t h⟩,
    fun h => ⟨?_, ?_, rfl, rfl⟩⟩
  · unfold get_sfp
    rw [if_neg (by simp [h])]
    rcases hp : py_list_get (init_sfp env st).sfp_list (i - 1) with _ | s <;> simp [hp]
  · unfold get_change_event
    rw [if_neg (by simp [h])]

/-- Witness for C8 (amended) from a flag-unset state: the operation then
rebuilds, and from the constructed state operations change nothing. -/
theorem c8_witness :
    (empty_chassis env0).sfp_module_initialized = false ∧
    (get_change_event env0 (empty_chassis env0) 0).1 = init_sfp env0 (empty_chassis env0) ∧
    (chassis_init env0).sfp_module_initialized = true ∧
    (get_sfp env0 (chassis_init env0) 1).2.1 = chassis_init env0 :=
  ⟨rfl,
    ((c8_amended_eager_notifier env0 (empty_chassis env0) 0 0).2.2.2 rfl).2.1,
    rfl,
    ((c8_amended_eager_notifier env0 (chassis_init env0) 1 0).2.2.1 rfl).1⟩

/-- Claim C9: for each supported colour, a successful `set_status_led`
(the write stores the raw mode value at the node) returns `True` and a
subsequent `get_status_led` reads back exactly that colour. -/
theorem c9_status_led_round_trip (fs : String → Option String) (color : String)
    (h : color = "STATUS_LED_COLOR_OFF" ∨ color = "STATUS_LED_COLOR_RED") :
    (set_status_led fs true color).1 = true ∧
    get_status_led (set_status_led fs true color).2 = color := by
  rcases h with h | h <;> subst h <;> exact ⟨rfl, rfl⟩

/-- Witness for C9 with the colour `STATUS_LED_COLOR_RED`. -/
theorem c9_witness :
    (("STATUS_LED_COLOR_RED" : String) = "STATUS_LED_COLOR_OFF" ∨
      ("STATUS_LED_COLOR_RED" : String) = "STATUS_LED_COLOR_RED") ∧
    (set_status_led fs_none true "STATUS_LED_COLOR_RED").1 = true ∧
    get_status_led (set_status_led fs_none true "STATUS_LED_COLOR_RED").2 =
      "STATUS_LED_COLOR_RED" :=
  ⟨Or.inr rfl, c9_status_led_round_trip fs_none "STATUS_LED_COLOR_RED" (Or.inr rfl)⟩

/-- Claim C10: `get_port_or_cage_type` partitions the integers into exactly
two outcomes with no error case: indices 1..64 yield the combined
QSFP-family bitmask, every other integer (65, 66, 0, negatives, ...) yields
the combined SFP-family bitmask. -/
theorem c10_port_type_partition (b : SfpBaseBits) (i : Int) :
    ((1 ≤ i ∧ i ≤ 64) → get_port_or_cage_type b i = qsfp_family_mask b) ∧
    (¬(1 ≤ i ∧ i ≤ 64) → get_port_or_cage_type b i = sfp_family_mask b) := by
  constructor <;> intro h
  · rw [get_port_or_cage_type, if_pos (by omega)]
    rfl
  · rw [get_port_or_cage_type, if_neg (by omega)]
    rfl

/-- Witness for C10 at indices 1 and 65 with the concrete `SfpBase` bit
values; the two outcomes are distinct there. -/
theorem c10_witness :
    ((1 : Int) ≤ 1 ∧ (1 : Int) ≤ 64) ∧
    get_port_or_cage_type sfp_base_bits 1 = qsfp_family_mask sfp_base_bits ∧
    ¬((1 : Int) ≤ 65 ∧ (65 : Int) ≤ 64) ∧
    get_port_or_cage_type sfp_base_bits 65 = sfp_family_mask sfp_base_bits ∧
    qsfp_family_mask sfp_base_bits ≠ sfp_family_mask sfp_base_bits :=
  ⟨by decide,
    (c10_port_type_partition sfp_base_bits 1).1 (by decide),
    by decide,
    (c10_port_type_partition sfp_base_bits 65).2 (by decide),
    by decide⟩
